import Mathlib

/-!
Verification of the iris training pipeline repository
(src/pipelines/11_iris_training_pipeline.py).

The repository defines five KFP components (data_prep, validate_data,
train_model, validate_model, evaluate_model) and a pipeline function
iris_pipeline that invokes four of them, wiring outputs of earlier tasks
into inputs of later tasks.  The DAG construction itself (the Graph
Builder), run submission and error handling live in the kfp library,
which is outside the repository source; those parts are modelled from
the specification (sections 3, 4.1, 4.3, 4.4 and 7 of spec.md), while the
component signatures, the concrete invocation sequence of iris_pipeline
and the component bodies are embedded directly from the source file.
-/

namespace Iris

/-- Artifact kinds of the data model: Dataset, Model, Metrics
(`dsl.Dataset`, `dsl.Model`, `dsl.Metrics` in the source). -/
inductive ArtifactKind where
  | dataset
  | model
  | metrics
deriving DecidableEq, Repr

/-- A component definition: a name together with the declared typed
inputs and typed outputs, as written in the python function signatures
decorated with `dsl.component`. -/
structure ComponentDef where
  name : String
  inputs : List (String × ArtifactKind)
  outputs : List (String × ArtifactKind)
deriving DecidableEq, Repr

/-- An argument supplied to an invocation: either a run-level literal
parameter value, or an artifact reference `task.outputs[out]` naming the
producing invocation by its position in the construction sequence. -/
inductive Arg where
  | param (p : String)
  | taskOutput (task : Nat) (out : String)
deriving DecidableEq, Repr

/-- Whether an argument is an artifact reference (as opposed to a
run-level literal parameter). -/
def Arg.isArtifactRef : Arg → Bool
  | .param _ => false
  | .taskOutput _ _ => true

/-- One invocation of a component definition inside a pipeline function
body: the component plus the keyword bindings (input name, argument). -/
structure Invocation where
  comp : ComponentDef
  args : List (String × Arg)
deriving DecidableEq, Repr

/-- Definition-time and submission-time error kinds of the spec's error
taxonomy.  `unknownInput` additionally covers binding an argument name
the component does not declare, which in kfp is likewise a
definition-time failure. -/
inductive ErrorKind where
  | UndeclaredOutput
  | TypeMismatch
  | DuplicateOutputName
  | UnknownParameterOverride
  | unknownInput
deriving DecidableEq, Repr

/-- A task node of the compiled graph: its position in construction
order and the component definition it binds. -/
structure Task where
  id : Nat
  comp : ComponentDef
deriving DecidableEq, Repr

/-- An edge of the compiled graph, one per artifact-reference argument:
producer task, consumer task, and the output/input names bound. -/
structure Edge where
  producer : Nat
  consumer : Nat
  outName : String
  inName : String
deriving DecidableEq, Repr

/-- The compiled pipeline graph: task nodes, artifact edges and the
declared run-level parameters with their default values. -/
structure Graph where
  tasks : List Task
  edges : List Edge
  params : List (String × String)
deriving DecidableEq, Repr

/-- Modelled from the spec: validation of one keyword binding by the
Graph Builder (spec 4.1 and 4.3).  The bound input must be declared by
the component; a literal parameter argument induces no edge; an
artifact reference must name an already-constructed task and one of its
declared outputs (otherwise UndeclaredOutput), and the declared kinds
must agree (otherwise TypeMismatch).  On success it returns the induced
edges (exactly one per artifact reference). -/
def checkBinding (tasks : List Task) (cid : Nat) (comp : ComponentDef)
    (n : String) : Arg → Except ErrorKind (List Edge)
  | .param _ =>
    match comp.inputs.lookup n with
    | none => .error .unknownInput
    | some _ => .ok []
  | .taskOutput t o =>
    match comp.inputs.lookup n with
    | none => .error .unknownInput
    | some k =>
      match tasks.get? t with
      | none => .error .UndeclaredOutput
      | some pt =>
        match pt.comp.outputs.lookup o with
        | none => .error .UndeclaredOutput
        | some k2 =>
          if k2 = k then .ok [⟨t, cid, o, n⟩] else .error .TypeMismatch

/-- Modelled from the spec: validation of all keyword bindings of one
invocation, in order, collecting the induced edges; the first failing
binding aborts with its error. -/
def checkBindings (tasks : List Task) (cid : Nat) (comp : ComponentDef) :
    List (String × Arg) → Except ErrorKind (List Edge)
  | [] => .ok []
  | b :: bs =>
    match checkBinding tasks cid comp b.1 b.2 with
    | .error e => .error e
    | .ok es =>
      match checkBindings tasks cid comp bs with
      | .error e => .error e
      | .ok rest => .ok (es ++ rest)

/-- Modelled from the spec: the Graph Builder (spec 4.3).  It processes
the invocation sequence in construction order, for each invocation
checking that the component declares no duplicate output names and that
every binding validates against the already-constructed tasks, then
appends one task node and one edge per artifact-reference argument.
Compilation is fail-closed: any definition-time error aborts the whole
build and no partial graph is returned. -/
def buildAux (g : Graph) : List Invocation → Except ErrorKind Graph
  | [] => .ok g
  | inv :: invs =>
    if (inv.comp.outputs.map Prod.fst).Nodup then
      match checkBindings g.tasks g.tasks.length inv.comp inv.args with
      | .error e => .error e
      | .ok es =>
        buildAux ⟨g.tasks ++ [⟨g.tasks.length, inv.comp⟩], g.edges ++ es, g.params⟩ invs
    else .error .DuplicateOutputName

/-- Modelled from the spec: compile a pipeline from its declared
run-level parameters (with defaults) and its invocation sequence. -/
def buildPipeline (ps : List (String × String)) (invs : List Invocation) :
    Except ErrorKind Graph :=
  buildAux ⟨[], [], ps⟩ invs

/-- The data_prep component signature from the source: no inputs, four
Dataset outputs. -/
def data_prep : ComponentDef :=
  { name := "data_prep"
    inputs := []
    outputs := [("X_train_file", .dataset), ("X_test_file", .dataset),
                ("y_train_file", .dataset), ("y_test_file", .dataset)] }

/-- The validate_data component signature from the source: no inputs,
no outputs. -/
def validate_data : ComponentDef :=
  { name := "validate_data", inputs := [], outputs := [] }

/-- The train_model component signature from the source: two Dataset
inputs, one Model output. -/
def train_model : ComponentDef :=
  { name := "train_model"
    inputs := [("X_train_file", .dataset), ("y_train_file", .dataset)]
    outputs := [("model_file", .model)] }

/-- The validate_model component signature from the source: one Model
input, no outputs. -/
def validate_model : ComponentDef :=
  { name := "validate_model"
    inputs := [("model_file", .model)]
    outputs := [] }

/-- The evaluate_model component signature from the source: two Dataset
inputs, one Model input, one Metrics output. -/
def evaluate_model : ComponentDef :=
  { name := "evaluate_model"
    inputs := [("X_test_file", .dataset), ("y_test_file", .dataset),
               ("model_file", .model)]
    outputs := [("mlpipeline_metrics_file", .metrics)] }

/-- The declared run-level parameters of iris_pipeline: the single
parameter model_obc with default "iris-model". -/
def irisParams : List (String × String) := [("model_obc", "iris-model")]

/-- The invocation sequence of the iris_pipeline function body, in
source order: data_prep_task (index 0), train_model_task (index 1,
consuming two data_prep outputs), evaluate_model_task (index 2,
consuming two data_prep outputs and train_model's single output) and
validate_model_task (index 3, consuming train_model's single output).
`train_model_task.output` in the source denotes the component's unique
declared output, model_file. -/
def irisInvs : List Invocation :=
  [ { comp := data_prep, args := [] },
    { comp := train_model
      args := [("X_train_file", .taskOutput 0 "X_train_file"),
               ("y_train_file", .taskOutput 0 "y_train_file")] },
    { comp := evaluate_model
      args := [("X_test_file", .taskOutput 0 "X_test_file"),
               ("y_test_file", .taskOutput 0 "y_test_file"),
               ("model_file", .taskOutput 1 "model_file")] },
    { comp := validate_model
      args := [("model_file", .taskOutput 1 "model_file")] } ]

/-- The graph the Graph Builder produces for iris_pipeline. -/
def irisGraph : Graph :=
  { tasks := [⟨0, data_prep⟩, ⟨1, train_model⟩, ⟨2, evaluate_model⟩, ⟨3, validate_model⟩]
    edges := [⟨0, 1, "X_train_file", "X_train_file"⟩,
              ⟨0, 1, "y_train_file", "y_train_file"⟩,
              ⟨0, 2, "X_test_file", "X_test_file"⟩,
              ⟨0, 2, "y_test_file", "y_test_file"⟩,
              ⟨1, 2, "model_file", "model_file"⟩,
              ⟨1, 3, "model_file", "model_file"⟩]
    params := irisParams }

/-- The number of artifact-reference arguments over a whole invocation
sequence (the number of edges the Graph Builder is supposed to emit). -/
def countArtifactRefArgs (invs : List Invocation) : Nat :=
  (invs.map fun inv => (inv.args.filter fun b => b.2.isArtifactRef).length).sum

/-- Validity of one argument with respect to the components constructed
before it: a literal parameter is always admissible; an artifact
reference must name an earlier invocation and an output name that this
invocation's component declares. -/
def ArgValidC (comps : List ComponentDef) : Arg → Prop
  | .param _ => True
  | .taskOutput t o => ∃ c, comps.get? t = some c ∧ (c.outputs.lookup o).isSome

/-- The invariant of spec section 3 on a whole invocation sequence:
every bound input of every invocation is either a run-level literal
parameter or a declared output of an invocation constructed strictly
earlier in the sequence. -/
def SeqValid (invs : List Invocation) : Prop :=
  ∀ i inv, invs.get? i = some inv →
    ∀ b ∈ inv.args, ArgValidC ((invs.take i).map (·.comp)) b.2

/-- The error, if any, that a single binding produces during
validation. -/
def bindingError (tasks : List Task) (cid : Nat) (comp : ComponentDef)
    (n : String) (a : Arg) : Option ErrorKind :=
  match checkBinding tasks cid comp n a with
  | .ok _ => none
  | .error e => some e

/-- Modelled from the spec: the edges a single validated binding
contributes, as a relation (spec 4.3: one edge per artifact-reference
argument, none for a literal parameter). -/
inductive BindingEdges (tasks : List Task) (cid : Nat) (comp : ComponentDef) :
    String → Arg → List Edge → Prop where
  | par (n p k) : comp.inputs.lookup n = some k →
      BindingEdges tasks cid comp n (.param p) []
  | ref (n t o k pt) : comp.inputs.lookup n = some k →
      tasks.get? t = some pt → pt.comp.outputs.lookup o = some k →
      BindingEdges tasks cid comp n (.taskOutput t o) [⟨t, cid, o, n⟩]

/-- Modelled from the spec: the edges of one whole invocation, binding
by binding, in order. -/
inductive ArgsEdges (tasks : List Task) (cid : Nat) (comp : ComponentDef) :
    List (String × Arg) → List Edge → Prop where
  | nil : ArgsEdges tasks cid comp [] []
  | cons {b bs es1 es2} : BindingEdges tasks cid comp b.1 b.2 es1 →
      ArgsEdges tasks cid comp bs es2 →
      ArgsEdges tasks cid comp (b :: bs) (es1 ++ es2)

/-- Modelled from the spec: one run of the Graph Builder, as a
relation from a partially built graph and the remaining invocation
sequence to the finished graph.  Each step appends one task node and
the edges of its validated bindings. -/
inductive BuildsFrom : Graph → List Invocation → Graph → Prop where
  | nil (g) : BuildsFrom g [] g
  | cons {g inv invs es g2} : (inv.comp.outputs.map Prod.fst).Nodup →
      ArgsEdges g.tasks g.tasks.length inv.comp inv.args es →
      BuildsFrom ⟨g.tasks ++ [⟨g.tasks.length, inv.comp⟩], g.edges ++ es, g.params⟩ invs g2 →
      BuildsFrom g (inv :: invs) g2

/-- Modelled from the spec: a complete run of the Graph Builder on a
pipeline, starting from the empty graph. -/
def Builds (ps : List (String × String)) (invs : List Invocation) (g : Graph) : Prop :=
  BuildsFrom ⟨[], [], ps⟩ invs g

/-- Compiling iris_pipeline with the run-level parameter model_obc set
to a given value (the source gives it the default "iris-model"). -/
def irisBuild (v : String) : Except ErrorKind Graph :=
  buildPipeline [("model_obc", v)] irisInvs

/-- Modelled from the spec: run submission (spec 4.4).  The submitter
takes the external execution service as a function (the network call),
the compiled graph and the run-level parameter overrides; override keys
must all be declared parameters of the pipeline, otherwise submission
fails with UnknownParameterOverride before the service is invoked. -/
def submitRun (svc : Graph → List (String × String) → String) (g : Graph)
    (ov : List (String × String)) : Except ErrorKind String :=
  if ov.all fun kv => (g.params.lookup kv.1).isSome then .ok (svc g ov)
  else .error .UnknownParameterOverride

/-- A minimal JSON value type, enough for the metrics record that
evaluate_model serializes with json.dump (numbers modelled as
rationals). -/
inductive Json where
  | str (s : String)
  | num (q : ℚ)
  | arr (xs : List Json)
  | obj (fields : List (String × Json))

/-- Field lookup in a JSON object. -/
def jsonLookup (j : Json) (k : String) : Option Json :=
  match j with
  | .obj fs => fs.lookup k
  | _ => none

/-- The field names of a JSON object, in order. -/
def jsonFieldNames (j : Json) : Option (List String) :=
  match j with
  | .obj fs => some (fs.map Prod.fst)
  | _ => none

/-- The metrics record the evaluate_model body writes to its
mlpipeline_metrics_file, from the source (lines 174-185): an object
with a "metrics" array holding one entry with fields name,
numberValue and format; the accuracy score computed by scikit-learn is
an opaque number here. -/
def evaluateModelMetrics (acc : ℚ) : Json :=
  .obj [("metrics",
    .arr [.obj [("name", .str "accuracy-score"),
                ("numberValue", .num acc),
                ("format", .str "PERCENTAGE")]])]

/-- Spec predicate on one metrics entry: it has at least a string name,
a numeric numberValue, and a format drawn from the metrics format
enumeration (spec section 6: entries of shape
name: string, numberValue: number, format: enum). -/
def MetricEntryOk (e : Json) : Prop :=
  (∃ s, jsonLookup e "name" = some (.str s)) ∧
  (∃ q, jsonLookup e "numberValue" = some (.num q)) ∧
  (jsonLookup e "format" = some (.str "RAW") ∨
   jsonLookup e "format" = some (.str "PERCENTAGE"))

/-- Spec predicate on a whole metrics artifact: a structured record
whose "metrics" field is an array of well-formed entries. -/
def MetricsOk (j : Json) : Prop :=
  ∃ es, jsonLookup j "metrics" = some (.arr es) ∧ ∀ e ∈ es, MetricEntryOk e

/-- The artifact store at execution time: the list of output names a
run of a component body has written, in order (most recent first is
irrelevant; only occurrence counts matter). -/
abbrev Store := List String

/-- Executing the write trace of a component body against a store:
each write appends its output name. -/
def runWrites (ws : List String) (s : Store) : Store := s ++ ws

/-- The implementation facts of one component extracted from its body
in the source: which declared inputs it reads and which declared
outputs it writes, in body order. -/
structure ComponentImpl where
  comp : ComponentDef
  reads : List String
  writes : List String
deriving DecidableEq, Repr

/-- The data_prep body (source lines 69-75): reads nothing, writes its
four Dataset outputs once each via save_pickle. -/
def dataPrepImpl : ComponentImpl :=
  { comp := data_prep
    reads := []
    writes := ["X_train_file", "X_test_file", "y_train_file", "y_test_file"] }

/-- The validate_data body (source lines 81-82): the body is `pass`; it
reads nothing and writes nothing. -/
def validateDataImpl : ComponentImpl :=
  { comp := validate_data, reads := [], writes := [] }

/-- The train_model body (source lines 115-120): reads its two Dataset
inputs, writes its Model output once. -/
def trainModelImpl : ComponentImpl :=
  { comp := train_model
    reads := ["X_train_file", "y_train_file"]
    writes := ["model_file"] }

/-- The validate_model body (source lines 135-142): reads its Model
input, writes nothing. -/
def validateModelImpl : ComponentImpl :=
  { comp := validate_model, reads := ["model_file"], writes := [] }

/-- The evaluate_model body (source lines 165-185): reads its two
Dataset inputs and its Model input, writes its Metrics output once. -/
def evaluateModelImpl : ComponentImpl :=
  { comp := evaluate_model
    reads := ["X_test_file", "y_test_file", "model_file"]
    writes := ["mlpipeline_metrics_file"] }

/-- All component implementations of the source file. -/
def irisImpls : List ComponentImpl :=
  [dataPrepImpl, validateDataImpl, trainModelImpl, validateModelImpl, evaluateModelImpl]

/-- The prefix of the iris invocation sequence holding only the
data_prep invocation, and the graph it compiles to. -/
def irisPre1 : List Invocation := [{ comp := data_prep, args := [] }]

/-- The graph compiled from the data_prep invocation alone. -/
def irisPre1Graph : Graph :=
  { tasks := [⟨0, data_prep⟩], edges := [], params := irisParams }

/-- The prefix of the iris invocation sequence holding data_prep and
train_model. -/
def irisPre2 : List Invocation := irisInvs.take 2

/-- The graph compiled from the data_prep and train_model
invocations. -/
def irisPre2Graph : Graph :=
  { tasks := [⟨0, data_prep⟩, ⟨1, train_model⟩]
    edges := [⟨0, 1, "X_train_file", "X_train_file"⟩,
              ⟨0, 1, "y_train_file", "y_train_file"⟩]
    params := irisParams }

/-- A hypothetical invocation of train_model indexing data_prep's
outputs with a key ("bogus") absent from its declared outputs. -/
def badOutputInv : Invocation :=
  { comp := train_model
    args := [("X_train_file", .taskOutput 0 "bogus"),
             ("y_train_file", .taskOutput 0 "y_train_file")] }

/-- A hypothetical invocation of evaluate_model binding its
Dataset-typed input X_test_file to train_model's Model-typed output. -/
def badTypeInv : Invocation :=
  { comp := evaluate_model
    args := [("X_test_file", .taskOutput 1 "model_file"),
             ("y_test_file", .taskOutput 0 "y_test_file"),
             ("model_file", .taskOutput 1 "model_file")] }

/-! Theorems. -/

/-- A successful binding check returns one edge for an artifact
reference and none for a literal parameter. -/
theorem checkBinding_length {tasks : List Task} {cid : Nat} {comp : ComponentDef}
    {n : String} {a : Arg} {es : List Edge}
    (h : checkBinding tasks cid comp n a = .ok es) :
    es.length = if a.isArtifactRef then 1 else 0 := by
  cases a with
  | param p =>
    simp only [checkBinding] at h
    cases hk : comp.inputs.lookup n <;> rw [hk] at h <;> simp only at h
    · cases h
    · cases h
      simp [Arg.isArtifactRef]
  | taskOutput t o =>
    simp only [checkBinding] at h
    cases hk : comp.inputs.lookup n <;> rw [hk] at h <;> simp only at h
    · cases h
    · rename_i k
      cases hpt : tasks.get? t <;> rw [hpt] at h <;> simp only at h
      · cases h
      · rename_i pt
        cases hout : pt.comp.outputs.lookup o <;> rw [hout] at h <;> simp only at h
        · cases h
        · rename_i k2
          by_cases hkk : k2 = k
          · rw [if_pos hkk] at h
            cases h
            simp [Arg.isArtifactRef]
          · rw [if_neg hkk] at h
            cases h

/-- A successful invocation check returns exactly one edge per
artifact-reference argument. -/
theorem checkBindings_length {tasks : List Task} {cid : Nat} {comp : ComponentDef} :
    ∀ {args : List (String × Arg)} {es : List Edge},
    checkBindings tasks cid comp args = .ok es →
    es.length = (args.filter fun b => b.2.isArtifactRef).length := by
  intro args
  induction args with
  | nil =>
    intro es h
    cases h
    rfl
  | cons b bs ih =>
    intro es h
    unfold checkBindings at h
    split at h
    · cases h
    · rename_i es1 heq1
      split at h
      · cases h
      · rename_i rest heq2
        cases h
        have h1 := checkBinding_length heq1
        have h2 := ih heq2
        simp only [List.filter_cons]
        cases hb : b.2.isArtifactRef <;> simp [hb] at h1 <;>
          (simp [List.length_append, h1, h2, hb]; try omega)

/-- A successful run of the builder adds one task per invocation and
one edge per artifact-reference argument to the accumulator. -/
theorem buildAux_length :
    ∀ {invs : List Invocation} {g g2 : Graph}, buildAux g invs = .ok g2 →
      g2.tasks.length = g.tasks.length + invs.length ∧
      g2.edges.length = g.edges.length + countArtifactRefArgs invs := by
  intro invs
  induction invs with
  | nil =>
    intro g g2 h
    cases h
    simp [countArtifactRefArgs]
  | cons inv invs ih =>
    intro g g2 h
    unfold buildAux at h
    split at h
    · split at h
      · cases h
      · rename_i es heq
        obtain ⟨h1, h2⟩ := ih h
        have h3 := checkBindings_length heq
        constructor
        · simp at h1
          simp [h1]
          omega
        · simp at h2
          simp [countArtifactRefArgs, List.sum_cons] at h2 ⊢
          omega
    · cases h

/-- C1: for every invocation sequence accepted by the Graph Builder
(in particular any sequence whose artifact references all point to
already-constructed tasks' outputs), the compiled DAG has exactly one
node per invocation and exactly one edge per artifact-reference
argument. -/
theorem graph_builder_node_edge_counts (ps : List (String × String))
    (invs : List Invocation) (g : Graph)
    (h : buildPipeline ps invs = .ok g) :
    g.tasks.length = invs.length ∧ g.edges.length = countArtifactRefArgs invs := by
  unfold buildPipeline at h
  have hb := buildAux_length h
  simpa using hb

/-- Witness for C1 at the iris pipeline: the four invocations of
iris_pipeline compile to four tasks and six edges, one per
artifact-reference binding. -/
theorem graph_builder_node_edge_counts_witness :
    buildPipeline irisParams irisInvs = .ok irisGraph ∧
    irisGraph.tasks.length = 4 ∧ irisGraph.edges.length = 6 ∧
    irisInvs.length = 4 ∧ countArtifactRefArgs irisInvs = 6 ∧
    irisGraph.tasks.length = irisInvs.length ∧
    irisGraph.edges.length = countArtifactRefArgs irisInvs :=
  ⟨rfl, rfl, rfl, rfl, by decide,
   (graph_builder_node_edge_counts irisParams irisInvs irisGraph rfl).1,
   (graph_builder_node_edge_counts irisParams irisInvs irisGraph rfl).2⟩

/-- A binding that validates refers to a constructed task and one of
its declared outputs (or is a literal parameter). -/
theorem checkBinding_sound {tasks : List Task} {cid : Nat} {comp : ComponentDef}
    {n : String} {a : Arg} {es : List Edge}
    (h : checkBinding tasks cid comp n a = .ok es) :
    ArgValidC (tasks.map (·.comp)) a := by
  cases a with
  | param p => trivial
  | taskOutput t o =>
    simp only [checkBinding] at h
    cases hk : comp.inputs.lookup n <;> rw [hk] at h <;> simp only at h
    · cases h
    · rename_i k
      cases hpt : tasks.get? t <;> rw [hpt] at h <;> simp only at h
      · cases h
      · rename_i pt
        cases hout : pt.comp.outputs.lookup o <;> rw [hout] at h <;> simp only at h
        · cases h
        · refine ⟨pt.comp, ?_, ?_⟩
          · rw [List.get?_map, hpt]
            rfl
          · simp [hout]

/-- Every binding of a validated invocation is valid with respect to
the constructed tasks. -/
theorem checkBindings_sound {tasks : List Task} {cid : Nat} {comp : ComponentDef} :
    ∀ {args : List (String × Arg)} {es : List Edge},
    checkBindings tasks cid comp args = .ok es →
    ∀ b ∈ args, ArgValidC (tasks.map (·.comp)) b.2 := by
  intro args
  induction args with
  | nil =>
    intro es h b hb
    cases hb
  | cons b bs ih =>
    intro es h b1 hb1
    unfold checkBindings at h
    split at h
    · cases h
    · rename_i es1 heq1
      split at h
      · cases h
      · rename_i rest heq2
        rcases List.mem_cons.mp hb1 with hb1 | hb1
        · subst hb1
          exact checkBinding_sound heq1
        · exact ih heq2 b1 hb1

/-- Soundness of the builder loop: every binding of every processed
invocation is valid with respect to the accumulated tasks extended by
the invocations constructed before it. -/
theorem buildAux_sound :
    ∀ {invs : List Invocation} {g g2 : Graph}, buildAux g invs = .ok g2 →
      ∀ i inv, invs.get? i = some inv →
        ∀ b ∈ inv.args,
          ArgValidC (g.tasks.map (·.comp) ++ (invs.take i).map (·.comp)) b.2 := by
  intro invs
  induction invs with
  | nil =>
    intro g g2 h i inv hi
    cases hi
  | cons inv0 invs ih =>
    intro g g2 h i inv hi b hb
    unfold buildAux at h
    split at h
    · split at h
      · cases h
      · rename_i es heq
        cases i with
        | zero =>
          cases hi
          simpa using checkBindings_sound heq b hb
        | succ i =>
          have := ih h i inv hi b hb
          simpa [List.append_assoc] using this
    · cases h

/-- C2: a pipeline accepted by the Graph Builder satisfies the input
invariant (every bound input is a run-level literal parameter or a
declared output of an invocation constructed strictly earlier), and the
Graph Builder rejects every pipeline definition violating it. -/
theorem builder_input_invariant (ps : List (String × String)) (invs : List Invocation) :
    (∀ g, buildPipeline ps invs = .ok g → SeqValid invs) ∧
    (¬ SeqValid invs → ∀ g, buildPipeline ps invs ≠ .ok g) := by
  have h1 : ∀ g, buildPipeline ps invs = .ok g → SeqValid invs := by
    intro g h i inv hi b hb
    unfold buildPipeline at h
    have := buildAux_sound h i inv hi b hb
    simpa [SeqValid] using this
  exact ⟨h1, fun hns g hok => hns (h1 g hok)⟩

/-- Witness for C2 at the iris pipeline: the compiled iris invocation
sequence satisfies the input invariant — every artifact input of
train_model, evaluate_model and validate_model is a declared output of
a task constructed earlier in the function body. -/
theorem builder_input_invariant_witness : SeqValid irisInvs :=
  (builder_input_invariant irisParams irisInvs).1 irisGraph rfl

/-- The edges contributed by one binding are determined by the binding. -/
theorem bindingEdges_det {tasks : List Task} {cid : Nat} {comp : ComponentDef}
    {n : String} {a : Arg} {es1 es2 : List Edge}
    (h1 : BindingEdges tasks cid comp n a es1) (h2 : BindingEdges tasks cid comp n a es2) :
    es1 = es2 := by
  cases h1 <;> cases h2 <;> rfl

/-- The edges contributed by one invocation are determined by its
bindings. -/
theorem argsEdges_det {tasks : List Task} {cid : Nat} {comp : ComponentDef} :
    ∀ {args : List (String × Arg)} {es1 es2 : List Edge},
    ArgsEdges tasks cid comp args es1 → ArgsEdges tasks cid comp args es2 →
    es1 = es2 := by
  intro args
  induction args with
  | nil =>
    intro es1 es2 h1 h2
    cases h1
    cases h2
    rfl
  | cons b bs ih =>
    intro es1 es2 h1 h2
    cases h1 with
    | cons hb1 hbs1 =>
      cases h2 with
      | cons hb2 hbs2 =>
        rw [bindingEdges_det hb1 hb2, ih hbs1 hbs2]

/-- The Graph Builder relation is a function of its invocation
sequence: two runs starting from the same partial graph end in the same
graph. -/
theorem buildsFrom_det :
    ∀ {invs : List Invocation} {g g1 g2 : Graph},
    BuildsFrom g invs g1 → BuildsFrom g invs g2 → g1 = g2 := by
  intro invs
  induction invs with
  | nil =>
    intro g g1 g2 h1 h2
    cases h1
    cases h2
    rfl
  | cons inv invs ih =>
    intro g g1 g2 h1 h2
    cases h1 with
    | cons hnd1 ha1 hrest1 =>
      cases h2 with
      | cons hnd2 ha2 hrest2 =>
        rw [argsEdges_det ha1 ha2] at hrest1
        exact ih hrest1 hrest2

/-- A binding the checker accepts contributes exactly the edges the
edge relation assigns to it. -/
theorem checkBinding_edges {tasks : List Task} {cid : Nat} {comp : ComponentDef}
    {n : String} {a : Arg} {es : List Edge}
    (h : checkBinding tasks cid comp n a = .ok es) :
    BindingEdges tasks cid comp n a es := by
  cases a with
  | param p =>
    simp only [checkBinding] at h
    cases hk : comp.inputs.lookup n <;> rw [hk] at h <;> simp only at h
    · cases h
    · rename_i k
      cases h
      exact .par n p k hk
  | taskOutput t o =>
    simp only [checkBinding] at h
    cases hk : comp.inputs.lookup n <;> rw [hk] at h <;> simp only at h
    · cases h
    · rename_i k
      cases hpt : tasks.get? t <;> rw [hpt] at h <;> simp only at h
      · cases h
      · rename_i pt
        cases hout : pt.comp.outputs.lookup o <;> rw [hout] at h <;> simp only at h
        · cases h
        · rename_i k2
          by_cases hkk : k2 = k
          · subst hkk
            rw [if_pos rfl] at h
            cases h
            exact .ref n t o k2 pt hk hpt hout
          · rw [if_neg hkk] at h
            cases h

/-- An invocation the checker accepts contributes exactly the edges the
edge relation assigns to its bindings. -/
theorem checkBindings_edges {tasks : List Task} {cid : Nat} {comp : ComponentDef} :
    ∀ {args : List (String × Arg)} {es : List Edge},
    checkBindings tasks cid comp args = .ok es →
    ArgsEdges tasks cid comp args es := by
  intro args
  induction args with
  | nil =>
    intro es h
    cases h
    exact .nil
  | cons b bs ih =>
    intro es h
    unfold checkBindings at h
    split at h
    · cases h
    · rename_i es1 heq1
      split at h
      · cases h
      · rename_i rest heq2
        cases h
        exact .cons (checkBinding_edges heq1) (ih heq2)

/-- A successful run of the builder function is a run of the builder
relation. -/
theorem buildAux_builds :
    ∀ {invs : List Invocation} {g g2 : Graph},
    buildAux g invs = .ok g2 → BuildsFrom g invs g2 := by
  intro invs
  induction invs with
  | nil =>
    intro g g2 h
    cases h
    exact .nil g
  | cons inv invs ih =>
    intro g g2 h
    unfold buildAux at h
    split at h
    · rename_i hnd
      split at h
      · cases h
      · rename_i es heq
        exact .cons hnd (checkBindings_edges heq) (ih h)
    · cases h

/-- A pipeline the builder function compiles is compiled by the builder
relation. -/
theorem buildPipeline_builds {ps : List (String × String)} {invs : List Invocation}
    {g : Graph} (h : buildPipeline ps invs = .ok g) : Builds ps invs g :=
  buildAux_builds h

/-- C3: the Graph Builder is deterministic — any two runs of the
builder relation on the same declared parameters and the same
invocation sequence produce graphs with identical node lists, identical
edge lists (hence identical declared input and output types) and
identical declared parameters. -/
theorem builder_deterministic (ps : List (String × String)) (invs : List Invocation)
    (g1 g2 : Graph) (h1 : Builds ps invs g1) (h2 : Builds ps invs g2) :
    g1.tasks = g2.tasks ∧ g1.edges = g2.edges ∧ g1.params = g2.params := by
  have h := buildsFrom_det h1 h2
  rw [h]
  exact ⟨rfl, rfl, rfl⟩

/-- Witness for C3 at the iris pipeline: two compilations of the iris
invocation sequence agree on nodes, edges and parameters. -/
theorem builder_deterministic_witness :
    irisGraph.tasks = irisGraph.tasks ∧ irisGraph.edges = irisGraph.edges ∧
    irisGraph.params = irisGraph.params :=
  builder_deterministic irisParams irisInvs irisGraph irisGraph
    (buildPipeline_builds rfl) (buildPipeline_builds rfl)

/-- One step of the builder on a validated invocation. -/
theorem buildAux_cons_ok {g : Graph} {inv : Invocation} {es : List Edge}
    (hnd : (inv.comp.outputs.map Prod.fst).Nodup)
    (hcb : checkBindings g.tasks g.tasks.length inv.comp inv.args = .ok es)
    (invs : List Invocation) :
    buildAux g (inv :: invs) =
      buildAux ⟨g.tasks ++ [⟨g.tasks.length, inv.comp⟩], g.edges ++ es, g.params⟩ invs := by
  simp [buildAux, hnd, hcb]

/-- One step of the builder on an invocation whose bindings fail. -/
theorem buildAux_cons_error {g : Graph} {inv : Invocation} {e : ErrorKind}
    (hnd : (inv.comp.outputs.map Prod.fst).Nodup)
    (hcb : checkBindings g.tasks g.tasks.length inv.comp inv.args = .error e)
    (invs : List Invocation) :
    buildAux g (inv :: invs) = .error e := by
  simp [buildAux, hnd, hcb]

/-- A build over an appended sequence continues from the graph the
prefix compiles to. -/
theorem buildAux_append_ok :
    ∀ {l1 : List Invocation} {g g1 : Graph}, buildAux g l1 = .ok g1 →
      ∀ l2, buildAux g (l1 ++ l2) = buildAux g1 l2 := by
  intro l1
  induction l1 with
  | nil =>
    intro g g1 h l2
    cases h
    rfl
  | cons inv l1 ih =>
    intro g g1 h l2
    unfold buildAux at h
    by_cases hnd : (inv.comp.outputs.map Prod.fst).Nodup
    · rw [if_pos hnd] at h
      cases hcb : checkBindings g.tasks g.tasks.length inv.comp inv.args with
      | error e =>
        rw [hcb] at h
        cases h
      | ok es =>
        rw [hcb] at h
        simp only at h
        rw [List.cons_append, buildAux_cons_ok hnd hcb]
        exact ih h l2
    · rw [if_neg hnd] at h
      cases h

/-- If every binding of an invocation either validates or fails with
one same error, and at least one fails, the invocation check fails with
that error. -/
theorem checkBindings_error {tasks : List Task} {cid : Nat} {comp : ComponentDef}
    {e : ErrorKind} :
    ∀ {args : List (String × Arg)},
    (∀ b ∈ args, bindingError tasks cid comp b.1 b.2 = none ∨
                 bindingError tasks cid comp b.1 b.2 = some e) →
    (∃ b ∈ args, bindingError tasks cid comp b.1 b.2 = some e) →
    checkBindings tasks cid comp args = .error e := by
  intro args
  induction args with
  | nil =>
    rintro - ⟨b, hb, -⟩
    cases hb
  | cons b bs ih =>
    intro hall hex
    unfold checkBindings
    cases hcb : checkBinding tasks cid comp b.1 b.2 with
    | error e1 =>
      have hb := hall b (List.mem_cons_self b bs)
      simp only [bindingError, hcb] at hb
      rcases hb with hb | hb
      · cases hb
      · simp [Option.some.injEq] at hb
        simp [hb]
    | ok es =>
      have hex2 : ∃ b2 ∈ bs, bindingError tasks cid comp b2.1 b2.2 = some e := by
        rcases hex with ⟨b2, hb2, he2⟩
        rcases List.mem_cons.mp hb2 with hb2 | hb2
        · subst hb2
          simp only [bindingError, hcb] at he2
          cases he2
        · exact ⟨b2, hb2, he2⟩
      have h2 := ih (fun b2 hm => hall b2 (List.mem_cons_of_mem _ hm)) hex2
      simp [hcb, h2]

/-- A binding whose artifact reference names a constructed task but an
output name the producer does not declare fails with
UndeclaredOutput. -/
theorem bindingError_undeclared {tasks : List Task} {cid : Nat} {comp : ComponentDef}
    {n : String} {t : Nat} {o : String} {k : ArtifactKind} {pt : Task}
    (hin : comp.inputs.lookup n = some k)
    (hpt : tasks.get? t = some pt)
    (hout : pt.comp.outputs.lookup o = none) :
    bindingError tasks cid comp n (.taskOutput t o) = some .UndeclaredOutput := by
  have hpt2 : tasks[t]? = some pt := by
    rw [← List.get?_eq_getElem?]
    exact hpt
  simp [bindingError, checkBinding, hin, hpt2, hout]

/-- A binding whose artifact reference resolves to an output of a kind
different from the declared kind of the consuming input fails with
TypeMismatch. -/
theorem bindingError_mismatch {tasks : List Task} {cid : Nat} {comp : ComponentDef}
    {n : String} {t : Nat} {o : String} {k k2 : ArtifactKind} {pt : Task}
    (hin : comp.inputs.lookup n = some k)
    (hpt : tasks.get? t = some pt)
    (hout : pt.comp.outputs.lookup o = some k2)
    (hne : k2 ≠ k) :
    bindingError tasks cid comp n (.taskOutput t o) = some .TypeMismatch := by
  have hpt2 : tasks[t]? = some pt := by
    rw [← List.get?_eq_getElem?]
    exact hpt
  simp [bindingError, checkBinding, hin, hpt2, hout, hne]

/-- C4: an invocation that references, on a constructed task, an output
name the producing task's component does not declare makes the whole
compilation fail at definition time with UndeclaredOutput (no partial
graph is returned), provided its other bindings do not fail
differently. -/
theorem undeclared_output_fails (ps : List (String × String))
    (pre : List Invocation) (inv : Invocation) (rest : List Invocation) (g : Graph)
    (hpre : buildPipeline ps pre = .ok g)
    (hnd : (inv.comp.outputs.map Prod.fst).Nodup)
    (hall : ∀ b ∈ inv.args,
      bindingError g.tasks g.tasks.length inv.comp b.1 b.2 = none ∨
      bindingError g.tasks g.tasks.length inv.comp b.1 b.2 = some .UndeclaredOutput)
    (hex : ∃ b ∈ inv.args, ∃ t o k pt,
      b.2 = .taskOutput t o ∧
      inv.comp.inputs.lookup b.1 = some k ∧
      g.tasks.get? t = some pt ∧
      pt.comp.outputs.lookup o = none) :
    buildPipeline ps (pre ++ inv :: rest) = .error .UndeclaredOutput := by
  unfold buildPipeline at hpre ⊢
  rw [buildAux_append_ok hpre]
  have hex2 : ∃ b ∈ inv.args,
      bindingError g.tasks g.tasks.length inv.comp b.1 b.2 = some .UndeclaredOutput := by
    rcases hex with ⟨b, hb, t, o, k, pt, hbt, hin, hpt, hout⟩
    refine ⟨b, hb, ?_⟩
    rw [hbt]
    exact bindingError_undeclared hin hpt hout
  exact buildAux_cons_error hnd (checkBindings_error hall hex2) rest

/-- Witness for C4: invoking train_model with
data_prep_task.outputs side key "bogus" (absent from data_prep's
declared outputs) after the data_prep invocation makes compilation
fail with UndeclaredOutput. -/
theorem undeclared_output_fails_witness :
    buildPipeline irisParams (irisPre1 ++ badOutputInv :: []) =
      .error .UndeclaredOutput :=
  undeclared_output_fails irisParams irisPre1 badOutputInv [] irisPre1Graph rfl
    (by decide) (by decide)
    ⟨("X_train_file", .taskOutput 0 "bogus"), by decide, 0, "bogus",
      .dataset, ⟨0, data_prep⟩, rfl, rfl, rfl, rfl⟩

/-- C5: an invocation binding an input declared with one artifact kind
to an artifact reference whose resolved output has a different kind
makes the whole compilation fail at definition time with TypeMismatch,
provided its other bindings do not fail differently. -/
theorem type_mismatch_fails (ps : List (String × String))
    (pre : List Invocation) (inv : Invocation) (rest : List Invocation) (g : Graph)
    (hpre : buildPipeline ps pre = .ok g)
    (hnd : (inv.comp.outputs.map Prod.fst).Nodup)
    (hall : ∀ b ∈ inv.args,
      bindingError g.tasks g.tasks.length inv.comp b.1 b.2 = none ∨
      bindingError g.tasks g.tasks.length inv.comp b.1 b.2 = some .TypeMismatch)
    (hex : ∃ b ∈ inv.args, ∃ t o k k2 pt,
      b.2 = .taskOutput t o ∧
      inv.comp.inputs.lookup b.1 = some k ∧
      g.tasks.get? t = some pt ∧
      pt.comp.outputs.lookup o = some k2 ∧ k2 ≠ k) :
    buildPipeline ps (pre ++ inv :: rest) = .error .TypeMismatch := by
  unfold buildPipeline at hpre ⊢
  rw [buildAux_append_ok hpre]
  have hex2 : ∃ b ∈ inv.args,
      bindingError g.tasks g.tasks.length inv.comp b.1 b.2 = some .TypeMismatch := by
    rcases hex with ⟨b, hb, t, o, k, k2, pt, hbt, hin, hpt, hout, hne⟩
    refine ⟨b, hb, ?_⟩
    rw [hbt]
    exact bindingError_mismatch hin hpt hout hne
  exact buildAux_cons_error hnd (checkBindings_error hall hex2) rest

/-- Witness for C5: binding evaluate_model's Dataset-typed input
X_test_file to train_model's Model-typed output, after the data_prep
and train_model invocations, makes compilation fail with
TypeMismatch. -/
theorem type_mismatch_fails_witness :
    buildPipeline irisParams (irisPre2 ++ badTypeInv :: []) =
      .error .TypeMismatch :=
  type_mismatch_fails irisParams irisPre2 badTypeInv [] irisPre2Graph rfl
    (by decide) (by decide)
    ⟨("X_test_file", .taskOutput 1 "model_file"), by decide, 1, "model_file",
      .dataset, .model, ⟨1, train_model⟩, rfl, rfl, rfl, rfl, by decide⟩

/-- C6: submitting run-level parameter overrides containing a key that
is not a declared parameter of the compiled pipeline fails with
UnknownParameterOverride, and no call to the execution service is
performed: the outcome is identical for every possible service. -/
theorem unknown_override_fails (svc : Graph → List (String × String) → String)
    (g : Graph) (ov : List (String × String))
    (h : ∃ kv ∈ ov, g.params.lookup kv.1 = none) :
    submitRun svc g ov = .error .UnknownParameterOverride ∧
    ∀ svc2, submitRun svc g ov = submitRun svc2 g ov := by
  have hv : (ov.all fun kv => (g.params.lookup kv.1).isSome) = false := by
    rw [List.all_eq_false]
    rcases h with ⟨kv, hm, hn⟩
    exact ⟨kv, hm, by simp [hn]⟩
  refine ⟨?_, ?_⟩
  · simp [submitRun, hv]
  · intro svc2
    simp [submitRun, hv]

/-- Witness for C6: the compiled iris pipeline declares exactly the
parameter model_obc, and submitting an override for the undeclared key
"epochs" fails with UnknownParameterOverride. -/
theorem unknown_override_fails_witness :
    irisGraph.params.map Prod.fst = ["model_obc"] ∧
    submitRun (fun _ _ => "run-id") irisGraph [("epochs", "10")] =
      .error .UnknownParameterOverride :=
  ⟨rfl,
   (unknown_override_fails (fun _ _ => "run-id") irisGraph [("epochs", "10")]
      ⟨("epochs", "10"), by decide, rfl⟩).1⟩

/-- C7: the validate_data component is a silent no-op: it declares no
inputs and no outputs, its body reads nothing and writes nothing, and
executing its (empty) write trace leaves every artifact store
unchanged. -/
theorem validate_data_noop :
    validate_data.inputs = [] ∧ validate_data.outputs = [] ∧
    validateDataImpl.reads = [] ∧ validateDataImpl.writes = [] ∧
    ∀ s : Store, runWrites validateDataImpl.writes s = s := by
  refine ⟨rfl, rfl, rfl, rfl, fun s => ?_⟩
  simp [runWrites, validateDataImpl]

/-- C8: the metrics artifact evaluate_model writes is a structured
record: its "metrics" array holds exactly one entry, the entry has
exactly the fields name, numberValue and format, its name is a string,
its numberValue is a number, and its format belongs to the format
enumeration. -/
theorem evaluate_metrics_structured (acc : ℚ) :
    MetricsOk (evaluateModelMetrics acc) ∧
    ∃ e, jsonLookup (evaluateModelMetrics acc) "metrics" = some (.arr [e]) ∧
      jsonFieldNames e = some ["name", "numberValue", "format"] := by
  constructor
  · refine ⟨_, rfl, ?_⟩
    intro e he
    simp at he
    subst he
    exact ⟨⟨"accuracy-score", rfl⟩, ⟨acc, rfl⟩, Or.inr rfl⟩
  · exact ⟨_, rfl, rfl⟩

/-- C9: artifacts are write-once: in every component body of the
source, each declared output is written exactly once, every write
targets a declared output, every read targets a declared input, and no
body writes to an artifact it consumes as input. -/
theorem artifacts_write_once :
    ∀ impl ∈ irisImpls,
      (∀ o ∈ impl.comp.outputs.map Prod.fst, impl.writes.count o = 1) ∧
      (∀ w ∈ impl.writes, w ∈ impl.comp.outputs.map Prod.fst) ∧
      (∀ r ∈ impl.reads, r ∈ impl.comp.inputs.map Prod.fst) ∧
      (∀ w ∈ impl.writes, w ∉ impl.comp.inputs.map Prod.fst) := by
  decide

/-- Witness for C9: data_prep writes its X_train_file output exactly
once. -/
theorem artifacts_write_once_witness :
    dataPrepImpl.writes.count "X_train_file" = 1 :=
  (artifacts_write_once dataPrepImpl (by decide)).1 "X_train_file" (by decide)

/-- The result of compiling iris_pipeline is independent of the value
given to the run-level parameter model_obc, which only lands in the
declared-parameter list of the graph. -/
theorem irisBuild_eq (v : String) :
    irisBuild v = .ok ⟨irisGraph.tasks, irisGraph.edges, [("model_obc", v)]⟩ := rfl

/-- C10: the compiled graph does not depend on the run-level parameter
model_obc — compiling iris_pipeline with any two parameter values
yields identical task lists and identical edge lists (hence identical
bindings), because no task consumes model_obc. -/
theorem iris_param_noninterference (v1 v2 : String) (g1 g2 : Graph)
    (h1 : irisBuild v1 = .ok g1) (h2 : irisBuild v2 = .ok g2) :
    g1.tasks = g2.tasks ∧ g1.edges = g2.edges := by
  rw [irisBuild_eq v1] at h1
  rw [irisBuild_eq v2] at h2
  cases h1
  cases h2
  exact ⟨rfl, rfl⟩

/-- Witness for C10 at the default parameter value "iris-model" and the
distinct value "other-model". -/
theorem iris_param_noninterference_witness :
    (⟨irisGraph.tasks, irisGraph.edges, [("model_obc", "iris-model")]⟩ : Graph).tasks =
      (⟨irisGraph.tasks, irisGraph.edges, [("model_obc", "other-model")]⟩ : Graph).tasks ∧
    (⟨irisGraph.tasks, irisGraph.edges, [("model_obc", "iris-model")]⟩ : Graph).edges =
      (⟨irisGraph.tasks, irisGraph.edges, [("model_obc", "other-model")]⟩ : Graph).edges :=
  iris_param_noninterference "iris-model" "other-model" _ _
    (irisBuild_eq "iris-model") (irisBuild_eq "other-model")

end Iris
